import Mathlib

/-!
Shallow embedding of the `coreapp` module of the Sunrise_project
e-commerce backend (files `coreapp/models.py`, `coreapp/views.py`), and
verification of the specification's claims about it.

Conventions of the embedding:
* Database tables are Lean lists kept in insertion order (ascending
  autoincrement `id`), so `order_by(-id)` is `List.reverse`.
* Decimal prices are modelled as integer amounts of the smallest currency
  unit (`Nat`), which is exact for the two-decimal `DecimalField`s used.
* Python exceptions surface as `Except`/`Option` error values; a Python
  expression that raises (`KeyError` on a dict, `NameError` on an unbound
  local, `AttributeError` on a missing attribute, Django's `DoesNotExist`
  and `MultipleObjectsReturned`) is an `error` result of the enclosing
  operation.
-/

namespace Sunrise

/-- A PIL image resource: `Product.save` opens the product's image and reads
its pixel `height` and `width`; the file's byte size is part of the resource
(the `ImageField` stores a file) but is never read by `save`. -/
structure PILImage where
  height : Nat
  width : Nat
  sizeBytes : Nat
deriving DecidableEq, Repr

/-- Source constant `Product.MIN_RESOLUTION = (400, 400)` (models.py:74). -/
def MIN_RESOLUTION : Nat × Nat := (400, 400)

/-- Source constant `Product.MAX_RESOLUTION = (800, 800)` (models.py:75). -/
def MAX_RESOLUTION : Nat × Nat := (800, 800)

/-- Source constant `Product.MAX_IMAGE_SIZE = 3145728` (models.py:76); declared but never
consulted by any operation. -/
def MAX_IMAGE_SIZE : Nat := 3145728

/-- The two exceptions `Product.save` can raise (models.py:18-22). -/
inductive ResolutionError where
  | minResolution
  | maxResolution
deriving DecidableEq, Repr

/-- Validation in `Product.save` (models.py:91-100), shared by `NoteBook` and `Smartphone`
(both inherit the abstract `Product`). Faithful to the source, including the
comparisons of `img.width` against `min_height` and `max_height` (lines
96 and 98); `ok ()` stands for the final `super().save()` that persists the
record. -/
def productSave (img : PILImage) : Except ResolutionError Unit :=
  let min_height := MIN_RESOLUTION.1
  let max_height := MAX_RESOLUTION.1
  if img.height < min_height || img.width < min_height then
    .error .minResolution
  else if img.height > max_height || img.width > max_height then
    .error .maxResolution
  else
    .ok ()

end Sunrise

open Sunrise

/-- Helper: `productSave` written with propositional conditions. -/
theorem productSave_ite (h w s : Nat) :
    productSave ⟨h, w, s⟩ =
      if h < 400 ∨ w < 400 then .error .minResolution
      else if 800 < h ∨ 800 < w then .error .maxResolution
      else .ok () := by
  simp [productSave, MIN_RESOLUTION, MAX_RESOLUTION]

/-- C1: a product save (NoteBook or Smartphone, both run `Product.save`)
succeeds iff both pixel dimensions lie in [400, 800]; a dimension below 400
makes it fail with `MinResolutionErrorException`, and a dimension above 800
(with the minimum bound satisfied) makes it fail with
`MaxResolutionErrorException`. -/
theorem C1_save_iff_resolution_bounds (img : PILImage) :
    (productSave img = .ok () ↔
      (400 ≤ img.height ∧ img.height ≤ 800 ∧ 400 ≤ img.width ∧ img.width ≤ 800))
    ∧ ((img.height < 400 ∨ img.width < 400) →
        productSave img = .error .minResolution)
    ∧ ((400 ≤ img.height ∧ 400 ≤ img.width ∧ (800 < img.height ∨ 800 < img.width)) →
        productSave img = .error .maxResolution) := by
  obtain ⟨h, w, s⟩ := img
  simp only [productSave_ite]
  split_ifs with h1 h2 <;> simp <;> omega

/-- Witness for C1: the spec's three concrete scenarios, obtained by applying
the theorem at 300×300, 801×801 and 500×600. -/
theorem C1_save_iff_resolution_bounds_witness :
    productSave ⟨300, 300, 0⟩ = .error .minResolution
    ∧ productSave ⟨801, 801, 0⟩ = .error .maxResolution
    ∧ productSave ⟨500, 600, 0⟩ = .ok () :=
  ⟨(C1_save_iff_resolution_bounds ⟨300, 300, 0⟩).2.1 (by decide),
   (C1_save_iff_resolution_bounds ⟨801, 801, 0⟩).2.2 (by decide),
   (C1_save_iff_resolution_bounds ⟨500, 600, 0⟩).1.mpr (by decide)⟩

/-- C9: when an image violates both bounds at once (some dimension below 400
and some dimension above 800), `Product.save` raises the minimum-resolution
error, never the maximum one: the minimum check (models.py:96) is evaluated
first and at most one resolution error is raised per save attempt. -/
theorem C9_min_check_takes_precedence (img : PILImage)
    (hlow : img.height < 400 ∨ img.width < 400)
    (_hhigh : 800 < img.height ∨ 800 < img.width) :
    productSave img = .error .minResolution
    ∧ productSave img ≠ .error .maxResolution := by
  obtain ⟨h, w, s⟩ := img
  simp only [productSave_ite]
  rw [if_pos hlow]
  simp

/-- Witness for C9 at the spec's 300×900 image. -/
theorem C9_min_check_takes_precedence_witness :
    productSave ⟨300, 900, 0⟩ = .error .minResolution
    ∧ productSave ⟨300, 900, 0⟩ ≠ .error .maxResolution :=
  C9_min_check_takes_precedence ⟨300, 900, 0⟩ (by decide) (by decide)

/-- C10: the outcome of `Product.save` depends only on the pixel dimensions,
never on the image's byte size: `MAX_IMAGE_SIZE` is declared but unchecked,
so two images with equal dimensions save identically whatever their sizes,
and an in-bounds image saves successfully even when it exceeds
`MAX_IMAGE_SIZE`. -/
theorem C10_size_never_checked (h w s s' : Nat) :
    productSave ⟨h, w, s⟩ = productSave ⟨h, w, s'⟩
    ∧ ((400 ≤ h ∧ h ≤ 800 ∧ 400 ≤ w ∧ w ≤ 800) → MAX_IMAGE_SIZE < s →
        productSave ⟨h, w, s⟩ = .ok ()) := by
  refine ⟨rfl, fun hb _ => ?_⟩
  rw [productSave_ite, if_neg (by omega), if_neg (by omega)]

/-- Witness for C10: a 500×600 image of 4000000 bytes (beyond
`MAX_IMAGE_SIZE` = 3145728) saves successfully, and its outcome equals that
of a 1-byte image of the same dimensions. -/
theorem C10_size_never_checked_witness :
    (productSave ⟨500, 600, 4000000⟩ = productSave ⟨500, 600, 1⟩
      ∧ ((400 ≤ 500 ∧ 500 ≤ 800 ∧ 400 ≤ 600 ∧ 600 ≤ 800) →
          MAX_IMAGE_SIZE < 4000000 →
          productSave ⟨500, 600, 4000000⟩ = .ok ()))
    ∧ productSave ⟨500, 600, 4000000⟩ = .ok () :=
  ⟨C10_size_never_checked 500 600 4000000 1,
   (C10_size_never_checked 500 600 4000000 1).2 (by decide) (by decide)⟩

namespace Sunrise

/-- A persisted `Category` row (models.py:63-66). -/
structure Category where
  id : Nat
  name : String
  slug : String
deriving DecidableEq, Repr

/-- The persisted columns a specified operation can observe on a concrete
product row (`NoteBook` or `Smartphone`, models.py:103-130); the
variant-specific text columns play no role in any specified operation.
`price` is in minor currency units. -/
structure ProductRecord where
  id : Nat
  categoryId : Nat
  title : String
  slug : String
  price : Nat
deriving DecidableEq, Repr

/-- A persisted `Customer` row (models.py:161-163). -/
structure Customer where
  id : Nat
  userId : Nat
deriving DecidableEq, Repr

/-- A persisted `Cart` row (models.py:148-155). -/
structure Cart where
  id : Nat
  ownerId : Nat
  totalProducts : Nat
  totalPrice : Nat
  inOrder : Bool
  forAnonymousUser : Bool
deriving DecidableEq, Repr

/-- A persisted `CartProduct` (cart line) row (models.py:132-139). -/
structure CartProduct where
  id : Nat
  userId : Nat
  cartId : Nat
  contentTypeTag : String
  objectId : Nat
  quantity : Nat
  totalPrice : Nat
deriving DecidableEq, Repr

/-- The persisted store: one list per table, each kept in insertion order
(ascending autoincrement `id`). -/
structure Store where
  categories : List Category
  notebooks : List ProductRecord
  smartphones : List ProductRecord
  customers : List Customer
  carts : List Cart
  cartProducts : List CartProduct
deriving DecidableEq, Repr

/-- The Django ORM / Python failure modes the embedded operations surface:
`DoesNotExist` and `MultipleObjectsReturned` from `objects.get`, `Http404`
from `DetailView`, `KeyError` from a dict subscript, `NameError` from an
unbound local, `AttributeError` from a missing attribute, and the PIL error
from opening an absent image file. -/
inductive PyError where
  | doesNotExist
  | multipleObjectsReturned
  | http404
  | keyError
  | nameError
  | attributeError
  | imageOpenError
deriving DecidableEq, Repr

/-- Django's `Model.objects.get(...)`: exactly one row matching the filter,
otherwise `DoesNotExist` (zero rows) or `MultipleObjectsReturned`. -/
def objectsGet {α : Type} (l : List α) (p : α → Bool) : Except PyError α :=
  match l.filter p with
  | [] => .error .doesNotExist
  | [r] => .ok r
  | _ => .error .multipleObjectsReturned

/-- The tag → concrete-model registry `ProductDetailView.CT_MODEL_MODEL_CLASS`
(views.py:26-29), read against a store: `none` models the `KeyError` that a
tag outside the dict raises in `dispatch` (views.py:32). -/
def CT_MODEL_MODEL_CLASS (st : Store) (tag : String) : Option (List ProductRecord) :=
  if tag = "notebook" then some st.notebooks
  else if tag = "smartphone" then some st.smartphones
  else none

/-- Fetch by slug from a concrete product table, as `DetailView` does with
`slug_url_kwarg` over `model._base_manager.all()` (views.py:33, 38):
`Http404` when no row of that type has the slug. -/
def lookupBySlug (tbl : List ProductRecord) (slug : String) : Except PyError ProductRecord :=
  match tbl.find? (fun r => r.slug == slug) with
  | some r => .ok r
  | none => .error .http404

/-- Product resolution performed by `ProductDetailView` (views.py:24-38):
`dispatch` picks the concrete model class from the URL's type tag, then the
detail view fetches the row with the URL's slug. -/
def resolve (st : Store) (tag slug : String) : Except PyError ProductRecord :=
  match CT_MODEL_MODEL_CLASS st tag with
  | none => .error .keyError
  | some tbl => lookupBySlug tbl slug

end Sunrise

/-- Helper: `lookupBySlug` fails with `Http404` when no row has the slug. -/
theorem lookupBySlug_eq_error (tbl : List ProductRecord) (slug : String)
    (h : ∀ r ∈ tbl, r.slug ≠ slug) : lookupBySlug tbl slug = .error .http404 := by
  unfold lookupBySlug
  rw [List.find?_eq_none.mpr]
  intro r hr
  simpa using h r hr

/-- Helper: `lookupBySlug` returns a row of the table carrying the slug when
one exists. -/
theorem lookupBySlug_eq_ok (tbl : List ProductRecord) (slug : String)
    (h : ∃ r ∈ tbl, r.slug = slug) :
    ∃ r, lookupBySlug tbl slug = .ok r ∧ r ∈ tbl ∧ r.slug = slug := by
  have hsome : (tbl.find? (fun r => r.slug == slug)).isSome := by
    rw [List.find?_isSome]
    obtain ⟨r, hr, hs⟩ := h
    exact ⟨r, hr, by simpa using hs⟩
  cases hfind : tbl.find? (fun r => r.slug == slug) with
  | none => rw [hfind] at hsome; simp at hsome
  | some r =>
    refine ⟨r, ?_, List.mem_of_find?_eq_some hfind, ?_⟩
    · unfold lookupBySlug
      rw [hfind]
    · have := List.find?_some hfind
      simpa using this

/-- C8: for every tag and slug, resolution returns the concrete product of
the variant named by the tag when a row with that slug exists, fails with
`Http404` (the spec's `NotFound`) when the tag is `notebook` or `smartphone`
but no row of that type has the slug, and fails with `KeyError` (the spec's
`UnknownType`) when the tag is outside the closed registry. -/
theorem C8_resolve_by_tag_and_slug (st : Store) (tag slug : String) :
    (tag ≠ "notebook" → tag ≠ "smartphone" →
      resolve st tag slug = .error .keyError)
    ∧ (tag = "notebook" →
        ((∀ r ∈ st.notebooks, r.slug ≠ slug) →
          resolve st tag slug = .error .http404)
        ∧ ((∃ r ∈ st.notebooks, r.slug = slug) →
          ∃ r, resolve st tag slug = .ok r ∧ r ∈ st.notebooks ∧ r.slug = slug))
    ∧ (tag = "smartphone" →
        ((∀ r ∈ st.smartphones, r.slug ≠ slug) →
          resolve st tag slug = .error .http404)
        ∧ ((∃ r ∈ st.smartphones, r.slug = slug) →
          ∃ r, resolve st tag slug = .ok r ∧ r ∈ st.smartphones ∧ r.slug = slug)) := by
  refine ⟨fun h1 h2 => ?_, fun h1 => ⟨fun h => ?_, fun h => ?_⟩,
    fun h1 => ⟨fun h => ?_, fun h => ?_⟩⟩
  · simp [resolve, CT_MODEL_MODEL_CLASS, h1, h2]
  · subst h1
    simpa [resolve, CT_MODEL_MODEL_CLASS] using lookupBySlug_eq_error _ _ h
  · subst h1
    simpa [resolve, CT_MODEL_MODEL_CLASS] using lookupBySlug_eq_ok _ _ h
  · subst h1
    simpa [resolve, CT_MODEL_MODEL_CLASS] using lookupBySlug_eq_error _ _ h
  · subst h1
    simpa [resolve, CT_MODEL_MODEL_CLASS] using lookupBySlug_eq_ok _ _ h

/-- A one-notebook store used to witness C8. -/
def storeC8 : Store :=
  { categories := [⟨1, "Ноутбуки", "noutbuki"⟩]
    notebooks := [⟨1, 1, "NB One", "nb-1", 50000⟩]
    smartphones := []
    customers := []
    carts := []
    cartProducts := [] }

/-- Witness for C8: in `storeC8`, a known tag with a present slug resolves to
the row, a known tag with an absent slug fails `Http404`, and an unknown tag
fails `KeyError`. -/
theorem C8_resolve_by_tag_and_slug_witness :
    (∃ r, resolve storeC8 "notebook" "nb-1" = .ok r
       ∧ r ∈ storeC8.notebooks ∧ r.slug = "nb-1")
    ∧ resolve storeC8 "notebook" "zzz" = .error .http404
    ∧ resolve storeC8 "oven" "nb-1" = .error .keyError :=
  ⟨((C8_resolve_by_tag_and_slug storeC8 "notebook" "nb-1").2.1 rfl).2 (by decide),
   ((C8_resolve_by_tag_and_slug storeC8 "notebook" "zzz").2.1 rfl).1 (by decide),
   (C8_resolve_by_tag_and_slug storeC8 "oven" "nb-1").1 (by decide) (by decide)⟩

namespace Sunrise

/-- The dict `CategoryManager.CATEGORY_NAME_COUNT_NAME` (models.py:48-51):
maps a category NAME to the annotation key whose value becomes the sidebar
count; `none` models the `KeyError` raised for any other name. -/
def CATEGORY_NAME_COUNT_NAME (name : String) : Option String :=
  if name = "Ноутбуки" then some "notebook__count"
  else if name = "Смартфоны" then some "smartphone__count"
  else none

/-- The `notebook__count` annotation `models.Count('notebook')` adds to a
category row (models.py:57-58): the number of notebooks referencing the
category. (The persistence engine's query execution is out of scope, so the
aggregate is taken at its ORM meaning.) -/
def notebookCount (st : Store) (c : Category) : Nat :=
  (st.notebooks.filter (fun p => p.categoryId == c.id)).length

/-- The `smartphone__count` annotation, likewise. -/
def smartphoneCount (st : Store) (c : Category) : Nat :=
  (st.smartphones.filter (fun p => p.categoryId == c.id)).length

/-- One entry of the sidebar result: `dict(name=..., slug=..., count=...)`
(models.py:59). -/
structure SidebarEntry where
  name : String
  slug : String
  count : Nat
deriving DecidableEq, Repr

/-- The entry built for one category row: the count is the annotated value
under the key selected by the category's name. -/
def sidebarEntry (st : Store) (c : Category) (key : String) : SidebarEntry :=
  ⟨c.name, c.slug,
    if key = "notebook__count" then notebookCount st c else smartphoneCount st c⟩

/-- The list comprehension of `get_categories_for_left_sidebar`
(models.py:56-59), evaluated left to right: the subscript
`CATEGORY_NAME_COUNT_NAME[c.name]` raises `KeyError` at the first category
whose name is not a key, aborting the whole call (`none`). -/
def sidebarAux (st : Store) : List Category → Option (List SidebarEntry)
  | [] => some []
  | c :: cs =>
    match CATEGORY_NAME_COUNT_NAME c.name with
    | none => none
    | some key => (sidebarAux st cs).map (fun rest => sidebarEntry st c key :: rest)

/-- `CategoryManager.get_categories_for_left_sidebar` (models.py:56-59). -/
def getCategoriesForLeftSidebar (st : Store) : Option (List SidebarEntry) :=
  sidebarAux st st.categories

/-- Total number of persisted products (both variants) in a category: what
claim C5 says the sidebar count equals. -/
def productsInCategory (st : Store) (c : Category) : Nat :=
  ((st.notebooks ++ st.smartphones).filter (fun p => p.categoryId == c.id)).length

end Sunrise

/-- A store whose single category is named `Ноутбуки` but holds one
smartphone and no notebooks; a second store with a category name outside the
count-name dict. -/
def storeC5 : Store :=
  { categories := [⟨1, "Ноутбуки", "noutbuki"⟩]
    notebooks := []
    smartphones := [⟨1, 1, "S One", "s-1", 100⟩]
    customers := []
    carts := []
    cartProducts := [] }

/-- Companion store for C5 with an unmapped category name. -/
def storeC5bad : Store :=
  { categories := [⟨1, "Электроника", "elektronika"⟩]
    notebooks := []
    smartphones := [⟨1, 1, "S One", "s-1", 100⟩]
    customers := []
    carts := []
    cartProducts := [] }

/-- Counterexample to C5: in `storeC5` the category `Ноутбуки` holds one
persisted product (a smartphone), yet its sidebar entry reports count 0 —
the count is keyed off the category's NAME and counts only that one variant,
not both; and in `storeC5bad` the operation does not even return entries
(it raises `KeyError` on the unmapped name), contradicting "regardless of
the category's name". -/
theorem C5_counterexample :
    getCategoriesForLeftSidebar storeC5 = some [⟨"Ноутбуки", "noutbuki", 0⟩]
    ∧ productsInCategory storeC5 ⟨1, "Ноутбуки", "noutbuki"⟩ = 1
    ∧ (0 : Nat) ≠ 1
    ∧ getCategoriesForLeftSidebar storeC5bad = none := by
  refine ⟨by decide, by decide, by decide, by decide⟩

/-- C5 (amended): when the sidebar operation returns entries at all, each
category's entry carries the count of the single variant selected by the
category's NAME (`Ноутбуки` → its notebook count, any other mapped name →
its smartphone count); the operation fails (`KeyError`) exactly when some
category's name is outside the name→count-key dict. Zero-product categories
get count 0 by the same formula. -/
theorem C5_sidebar_count_by_name (st : Store) :
    (∀ entries, getCategoriesForLeftSidebar st = some entries →
      entries = st.categories.map (fun c =>
        ⟨c.name, c.slug,
          if c.name = "Ноутбуки" then notebookCount st c else smartphoneCount st c⟩))
    ∧ ((∃ c ∈ st.categories, CATEGORY_NAME_COUNT_NAME c.name = none) →
        getCategoriesForLeftSidebar st = none)
    ∧ ((∀ c ∈ st.categories, (CATEGORY_NAME_COUNT_NAME c.name).isSome) →
        ∃ entries, getCategoriesForLeftSidebar st = some entries) := by
  unfold getCategoriesForLeftSidebar
  induction st.categories with
  | nil =>
    refine ⟨fun entries h => ?_, fun h => ?_, fun _ => ⟨[], rfl⟩⟩
    · simpa [sidebarAux] using h.symm
    · simp at h
  | cons c cs ih =>
    refine ⟨fun entries h => ?_, fun h => ?_, fun h => ?_⟩
    · rw [sidebarAux] at h
      cases hk : CATEGORY_NAME_COUNT_NAME c.name with
      | none => rw [hk] at h; simp at h
      | some key =>
        rw [hk] at h
        cases hrest : sidebarAux st cs with
        | none => rw [hrest] at h; simp at h
        | some rest =>
          rw [hrest] at h
          simp only [Option.map, Option.some.injEq] at h
          subst h
          have hrec := ih.1 rest hrest
          rw [List.map_cons, ← hrec]
          unfold CATEGORY_NAME_COUNT_NAME at hk
          by_cases hn : c.name = "Ноутбуки"
          · rw [if_pos hn] at hk
            simp only [Option.some_inj] at hk
            simp [sidebarEntry, ← hk, hn]
          · rw [if_neg hn] at hk
            by_cases hs : c.name = "Смартфоны"
            · rw [if_pos hs] at hk
              simp only [Option.some_inj] at hk
              simp [sidebarEntry, ← hk, hn]
            · rw [if_neg hs] at hk
              simp at hk
    · rw [sidebarAux]
      rcases h with ⟨c', hc', hnone⟩
      rcases List.mem_cons.mp hc' with hc1 | hc2
      · subst hc1
        rw [hnone]
      · cases hk : CATEGORY_NAME_COUNT_NAME c.name with
        | none => rfl
        | some key =>
          rw [ih.2.1 ⟨c', hc2, hnone⟩]
          rfl
    · rw [sidebarAux]
      have hc := h c (List.mem_cons_self c cs)
      cases hk : CATEGORY_NAME_COUNT_NAME c.name with
      | none => rw [hk] at hc; simp at hc
      | some key =>
        obtain ⟨rest, hrest⟩ := ih.2.2 (fun c' hc' => h c' (List.mem_cons_of_mem c hc'))
        rw [hrest]
        exact ⟨sidebarEntry st c key :: rest, rfl⟩

/-- A store with both mapped category names, used to witness C5's amended
statement. -/
def storeC5w : Store :=
  { categories := [⟨1, "Ноутбуки", "n"⟩, ⟨2, "Смартфоны", "s"⟩]
    notebooks := [⟨1, 1, "A", "a", 10⟩]
    smartphones := [⟨1, 2, "B", "b", 20⟩, ⟨2, 1, "C", "c", 30⟩]
    customers := []
    carts := []
    cartProducts := [] }

/-- Witness for C5's amended statement: the mapped-name store yields the
name-keyed per-variant counts, and a store with an unmapped category name
yields `none`. -/
theorem C5_sidebar_count_by_name_witness :
    ([⟨"Ноутбуки", "n", 1⟩, ⟨"Смартфоны", "s", 1⟩] : List SidebarEntry) =
      storeC5w.categories.map (fun c =>
        ⟨c.name, c.slug,
          if c.name = "Ноутбуки" then notebookCount storeC5w c
          else smartphoneCount storeC5w c⟩)
    ∧ getCategoriesForLeftSidebar storeC5bad = none :=
  ⟨(C5_sidebar_count_by_name storeC5w).1 _ (by decide),
   (C5_sidebar_count_by_name storeC5bad).2.1 (by decide)⟩

namespace Sunrise

/-- A product row together with the concrete model it came from, as the
main-page aggregation observes it (`x.__class__._meta.model_name`,
models.py:39). -/
structure TaggedProduct where
  modelName : String
  row : ProductRecord
deriving DecidableEq, Repr

/-- The `ContentType` rows for the two concrete product models, in table
order, each paired with its model's table
(`ContentType.objects.filter(model__in=args)` and `model_class()`,
models.py:30-32). -/
def ctRegistry (st : Store) : List (String × List ProductRecord) :=
  [("notebook", st.notebooks), ("smartphone", st.smartphones)]

/-- One model's contribution:
`model_class()._base_manager.all().order_by(-id)[:5]` (models.py:32); the
table is in ascending-id order, so this is the last five rows, newest
first. -/
def latestFive (tbl : List ProductRecord) : List ProductRecord :=
  tbl.reverse.take 5

/-- The `products` list built by the loop of `get_products_for_main_page`
(models.py:29-33): the per-model latest-five blocks concatenated in
content-type table order, restricted to the requested tags. -/
def getProductsBase (st : Store) (args : List String) : List TaggedProduct :=
  ((ctRegistry st).filter (fun ct => args.contains ct.1)).foldr
    (fun ct acc => (latestFive ct.2).map (fun r => TaggedProduct.mk ct.1 r) ++ acc) []

/-- Python's `str.startswith`: `pyStartsWith s pre` holds when `pre` is a
prefix of `s`, the key used by the reorder in models.py:39. -/
def pyStartsWith (s pre : String) : Bool :=
  pre.data.isPrefixOf s.data

/-- Python's `sorted(l, key=..., reverse=True)` for a Boolean key
(models.py:38-40): the sort is stable and `reverse=True` keeps equal keys in
list order, so the rows whose key is `true` come first, each group keeping
its original order. -/
def sortedByKeyDescStable (l : List TaggedProduct) (key : TaggedProduct → Bool) :
    List TaggedProduct :=
  l.filter key ++ l.filter (fun x => !key x)

/-- `LatestProductManager.get_products_for_main_page` (models.py:26-41). The
source computes `products` once and possibly reorders it; `with_respect_to`
is reorder-relevant only when truthy (an empty string is falsy), its
content type exists, and it is among the requested tags, the key being
`model_name.startswith(with_respect_to)`. -/
def getProductsForMainPage (st : Store) (args : List String) (withRespectTo : Option String) :
    List TaggedProduct :=
  match withRespectTo with
  | none => getProductsBase st args
  | some wv =>
    if wv = "" then getProductsBase st args
    else if ((ctRegistry st).filter (fun ct => ct.1 == wv)).isEmpty then
      getProductsBase st args
    else if args.contains wv then
      sortedByKeyDescStable (getProductsBase st args) (fun x => pyStartsWith x.modelName wv)
    else getProductsBase st args

end Sunrise

/-- Helper: the loop's result is the two latest-five blocks, each present
exactly when its tag was requested. -/
theorem getProductsBase_eq (st : Store) (args : List String) :
    getProductsBase st args =
      (if args.contains "notebook" then
        (latestFive st.notebooks).map (fun r => TaggedProduct.mk "notebook" r) else [])
      ++ (if args.contains "smartphone" then
        (latestFive st.smartphones).map (fun r => TaggedProduct.mk "smartphone" r) else []) := by
  by_cases hnb : "notebook" ∈ args <;> by_cases hsp : "smartphone" ∈ args <;>
    simp [getProductsBase, ctRegistry, List.filter_cons, hnb, hsp]

/-- Helper: every element of the loop's result is tagged `notebook` or
`smartphone`. -/
theorem mem_getProductsBase (st : Store) (args : List String) (x : TaggedProduct)
    (hx : x ∈ getProductsBase st args) :
    x.modelName = "notebook" ∨ x.modelName = "smartphone" := by
  rw [getProductsBase_eq] at hx
  rcases List.mem_append.mp hx with h | h
  · by_cases hnb : args.contains "notebook" = true
    · rw [if_pos hnb] at h
      obtain ⟨r, _, hr⟩ := List.mem_map.mp h
      exact Or.inl (by rw [← hr])
    · rw [if_neg hnb] at h
      simp at h
  · by_cases hsp : args.contains "smartphone" = true
    · rw [if_pos hsp] at h
      obtain ⟨r, _, hr⟩ := List.mem_map.mp h
      exact Or.inr (by rw [← hr])
    · rw [if_neg hsp] at h
      simp at h

/-- C7: for requested tags drawn from the app's product-type tags, the
main-page query is the concatenation of the latest-five block per requested
type; with a prioritized tag that is among the requested tags the result is
the stable reorder putting that type's products first (relative order
otherwise preserved), and with the argument absent or not among the
requested tags the sequence is returned unreordered. -/
theorem C7_latest_products_prioritized (st : Store) (args : List String)
    (w : Option String) (hargs : ∀ a ∈ args, a = "notebook" ∨ a = "smartphone") :
    getProductsBase st args =
      (if args.contains "notebook" then
        (latestFive st.notebooks).map (fun r => TaggedProduct.mk "notebook" r) else [])
      ++ (if args.contains "smartphone" then
        (latestFive st.smartphones).map (fun r => TaggedProduct.mk "smartphone" r) else [])
    ∧ getProductsForMainPage st args w =
        match w with
        | none => getProductsBase st args
        | some t =>
          if args.contains t then
            (getProductsBase st args).filter (fun x => x.modelName == t)
              ++ (getProductsBase st args).filter (fun x => !(x.modelName == t))
          else getProductsBase st args := by
  refine ⟨getProductsBase_eq st args, ?_⟩
  cases w with
  | none => rfl
  | some t =>
    simp only [getProductsForMainPage]
    have hcontains : args.contains t = true → t ∈ args := fun h => by simpa using h
    by_cases htn : t = "notebook"
    · subst htn
      rw [if_neg (by decide : ¬("notebook" = ""))]
      have hreg : ((ctRegistry st).filter (fun ct => ct.1 == "notebook")).isEmpty = false := by
        simp [ctRegistry]
      rw [hreg, if_neg (by decide : ¬(false = true))]
      cases hc : args.contains "notebook" with
      | false =>
        rw [if_neg (by decide : ¬(false = true)), if_neg (by decide : ¬(false = true))]
      | true =>
        rw [if_pos rfl, if_pos rfl]
        have e1 : (getProductsBase st args).filter
              (fun x => pyStartsWith x.modelName "notebook")
            = (getProductsBase st args).filter (fun x => x.modelName == "notebook") :=
          List.filter_congr (fun x hx => by
            rcases mem_getProductsBase st args x hx with h | h <;> rw [h] <;> decide)
        have e2 : (getProductsBase st args).filter
              (fun x => !(pyStartsWith x.modelName "notebook"))
            = (getProductsBase st args).filter (fun x => !(x.modelName == "notebook")) :=
          List.filter_congr (fun x hx => by
            rcases mem_getProductsBase st args x hx with h | h <;> rw [h] <;> decide)
        show (getProductsBase st args).filter (fun x => pyStartsWith x.modelName "notebook")
            ++ (getProductsBase st args).filter (fun x => !(pyStartsWith x.modelName "notebook"))
          = _
        rw [e1, e2]
    · by_cases hts : t = "smartphone"
      · subst hts
        rw [if_neg (by decide : ¬("smartphone" = ""))]
        have hreg : ((ctRegistry st).filter (fun ct => ct.1 == "smartphone")).isEmpty = false := by
          simp [ctRegistry]
        rw [hreg, if_neg (by decide : ¬(false = true))]
        cases hc : args.contains "smartphone" with
        | false =>
          rw [if_neg (by decide : ¬(false = true)), if_neg (by decide : ¬(false = true))]
        | true =>
          rw [if_pos rfl, if_pos rfl]
          have e1 : (getProductsBase st args).filter
                (fun x => pyStartsWith x.modelName "smartphone")
              = (getProductsBase st args).filter (fun x => x.modelName == "smartphone") :=
            List.filter_congr (fun x hx => by
              rcases mem_getProductsBase st args x hx with h | h <;> rw [h] <;> decide)
          have e2 : (getProductsBase st args).filter
                (fun x => !(pyStartsWith x.modelName "smartphone"))
              = (getProductsBase st args).filter (fun x => !(x.modelName == "smartphone")) :=
            List.filter_congr (fun x hx => by
              rcases mem_getProductsBase st args x hx with h | h <;> rw [h] <;> decide)
          show (getProductsBase st args).filter (fun x => pyStartsWith x.modelName "smartphone")
              ++ (getProductsBase st args).filter (fun x => !(pyStartsWith x.modelName "smartphone"))
            = _
          rw [e1, e2]
      · have hct : args.contains t = false := by
          cases hcc : args.contains t
          · rfl
          · rcases hargs t (hcontains hcc) with h | h
            · exact absurd h htn
            · exact absurd h hts
        by_cases ht0 : t = ""
        · rw [if_pos ht0, if_neg (by rw [hct]; decide)]
        · rw [if_neg ht0]
          have h1 : (("notebook" : String) == t) = false :=
            beq_eq_false_iff_ne.mpr (Ne.symm htn)
          have h2 : (("smartphone" : String) == t) = false :=
            beq_eq_false_iff_ne.mpr (Ne.symm hts)
          have hreg : ((ctRegistry st).filter (fun ct => ct.1 == t)).isEmpty = true := by
            simp [ctRegistry, List.filter_cons, h1, h2]
          rw [hreg, if_pos rfl, if_neg (by rw [hct]; decide)]

/-- A store with two notebooks and one smartphone, used to witness C7. -/
def storeC7 : Store :=
  { categories := []
    notebooks := [⟨1, 1, "N1", "n1", 1⟩, ⟨2, 1, "N2", "n2", 2⟩]
    smartphones := [⟨1, 1, "S1", "s1", 3⟩]
    customers := []
    carts := []
    cartProducts := [] }

/-- Witness for C7: requesting both types with smartphones prioritized
yields the smartphone block first, the notebook block (newest first)
after it, relative order preserved. -/
theorem C7_latest_products_prioritized_witness :
    getProductsForMainPage storeC7 ["notebook", "smartphone"] (some "smartphone") =
      [⟨"smartphone", ⟨1, 1, "S1", "s1", 3⟩⟩,
       ⟨"notebook", ⟨2, 1, "N2", "n2", 2⟩⟩,
       ⟨"notebook", ⟨1, 1, "N1", "n1", 1⟩⟩] := by
  have h := (C7_latest_products_prioritized storeC7 ["notebook", "smartphone"]
    (some "smartphone") (by decide)).2
  rw [h]
  decide

namespace Sunrise

/-- Python attribute read of a numeric column on a `CartProduct` instance.
The model declares the columns `id`, `user`, `cart`, `content_type`,
`object_id`, `quantity`, `total_price` (models.py:132-139); reading any
other attribute name raises `AttributeError` (`none`). The string-valued
`content_type` is not tabulated here; no embedded operation reads it by
name. -/
def cartProductGetAttr (cp : CartProduct) (attrName : String) : Option Nat :=
  if attrName = "id" then some cp.id
  else if attrName = "user" then some cp.userId
  else if attrName = "cart" then some cp.cartId
  else if attrName = "object_id" then some cp.objectId
  else if attrName = "quantity" then some cp.quantity
  else if attrName = "total_price" then some cp.totalPrice
  else none

/-- `CartProduct.save` (models.py:144-146):
`self.total_price = self.qty * self.content_object.price` followed by
`super().save()`. `price` is the referenced product's price. The quantity
column is named `quantity` (models.py:138); no attribute `qty` exists on the
instance, so the read raises `AttributeError` before anything is assigned or
persisted. -/
def cartProductSave (cp : CartProduct) (price : Nat) : Except PyError CartProduct :=
  match cartProductGetAttr cp "qty" with
  | none => .error .attributeError
  | some q => .ok { cp with totalPrice := q * price }

/-- `ContentType.objects.get(model=ct_model)` as `AddToCartView.get` uses it
(views.py:60), over the content types of the two product models the cart
flow handles. -/
def contentTypeGet (tag : String) : Except PyError String :=
  objectsGet ["notebook", "smartphone"] (fun m => m == tag)

/-- The table `content_type.model_class().objects` denotes (views.py:61). -/
def productTable (st : Store) (tag : String) : List ProductRecord :=
  if tag = "notebook" then st.notebooks else st.smartphones

/-- `objects.get_or_create(slug=product_slug)` (views.py:61): returns the
existing row (with `created = false`) when one matches the slug. When none
matches, Django instantiates a row carrying only the slug and calls its
`save`; `Product.save` (models.py:92-93) immediately does
`Image.open(self.image)` on the unset image field, which raises, so the
create branch cannot complete and is an error. -/
def getOrCreate (tbl : List ProductRecord) (slug : String) :
    Except PyError (ProductRecord × Bool) :=
  match tbl.find? (fun r => r.slug == slug) with
  | some r => .ok (r, false)
  | none => .error .imageOpenError

/-- `AddToCartView.get` (views.py:54-67), steps in source order: fetch the
customer for the request user, the customer's cart with `in_order=False`,
the content type for the URL tag, and `get_or_create` the product by slug.
The next statement, `CartProduct.objects.create(user=cart.owner, cart=cart,
content_type=content_type, object_id=product_id)` (views.py:62-64),
evaluates its `object_id` argument, but no local named `product_id` is bound
anywhere in the method (the resolver's result was bound to `product`), so
the call raises `NameError`; the later `created` (views.py:65) is equally
unbound. No `CartProduct` row is ever created and no store mutation
happens. -/
def addToCart (st : Store) (requestUserId : Nat) (ctModel productSlug : String) :
    Except PyError Store := do
  let customer ← objectsGet st.customers (fun c => c.userId == requestUserId)
  let _cart ← objectsGet st.carts
    (fun c => c.ownerId == customer.id && c.inOrder == false)
  let contentType ← contentTypeGet ctModel
  let _product ← getOrCreate (productTable st contentType) productSlug
  Except.error .nameError

/-- `CartView.get` (views.py:70-80): fetch the customer for the request
user, then `Cart.objects.get(owner=customer)` — with no `in_order` filter —
then the sidebar counts, and hand the pair to the renderer. -/
def viewCart (st : Store) (requestUserId : Nat) :
    Except PyError (Cart × List SidebarEntry) := do
  let customer ← objectsGet st.customers (fun c => c.userId == requestUserId)
  let cart ← objectsGet st.carts (fun c => c.ownerId == customer.id)
  match getCategoriesForLeftSidebar st with
  | some categories => return (cart, categories)
  | none => Except.error .keyError

end Sunrise

/-- C4 (code bug, models.py:145): every attempt to save a cart line raises
`AttributeError`, because `save` reads `self.qty` while the declared column
is `quantity`; `total_price` is never recomputed on any save, so no
successful line save exists to establish the claimed invariant. -/
theorem C4_cart_line_save_raises (cp : CartProduct) (price : Nat) :
    cartProductSave cp price = .error .attributeError
    ∧ cartProductGetAttr cp "qty" = none
    ∧ cartProductGetAttr cp "quantity" = some cp.quantity :=
  ⟨rfl, rfl, rfl⟩

/-- A store with one customer (user 1), one ACTIVE cart and one notebook
with slug `nb-1`: every precondition of the add-to-cart flow is satisfied. -/
def storeAdd : Store :=
  { categories := [⟨1, "Ноутбуки", "noutbuki"⟩]
    notebooks := [⟨1, 1, "NB One", "nb-1", 50000⟩]
    smartphones := []
    customers := [⟨1, 1⟩]
    carts := [⟨1, 1, 0, 0, false, false⟩]
    cartProducts := [] }

/-- C2 (code bug, views.py:62-65): even with a customer, an active cart and
an existing product — every lookup preceding the line-creation step
succeeds — `add_to_cart` raises `NameError` (the unbound `product_id`), so
no `CartLine` is created on the first call nor on any repetition: the store
never reaches one line with quantity 2 (and the code path contains no
quantity increment at all). -/
theorem C2_add_to_cart_raises_nameError :
    addToCart storeAdd 1 "notebook" "nb-1" = .error .nameError
    ∧ (∀ st', addToCart storeAdd 1 "notebook" "nb-1" ≠ .ok st')
    ∧ storeAdd.cartProducts = [] :=
  ⟨rfl, fun _ h => Except.noConfusion h, rfl⟩

/-- Helper: a monadic sequence whose continuation always errors is itself
an error. -/
theorem bindIsError {α β : Type} (x : Except PyError α) (f : α → Except PyError β)
    (h : ∀ a, ∃ e, f a = .error e) : ∃ e, (x >>= f) = .error e := by
  cases x with
  | error e => exact ⟨e, rfl⟩
  | ok a => exact h a

/-- C3 (code bug, views.py:54-67): no invocation of `add_to_cart` ever
completes — every path ends in an error (`NameError` once the lookups
succeed, an earlier lookup error otherwise) — and the method body contains
no statement recomputing `cart.total_products` or `cart.total_price`, so
the claimed post-add aggregate invariant has no completed operation to hold
after. -/
theorem C3_no_completed_add_to_cart (st : Store) (u : Nat) (tag slug : String) :
    ∃ e, addToCart st u tag slug = .error e := by
  unfold addToCart
  apply bindIsError
  intro customer
  apply bindIsError
  intro cart
  apply bindIsError
  intro ct
  apply bindIsError
  intro p
  exact ⟨.nameError, rfl⟩

/-- A store whose only cart is already ORDERED (`in_order = true`). -/
def storeC6 : Store :=
  { categories := []
    notebooks := []
    smartphones := []
    customers := [⟨1, 1⟩]
    carts := [⟨1, 1, 0, 0, true, false⟩]
    cartProducts := [] }

/-- Counterexample to C6: customer 1 has no ACTIVE cart (the only cart has
`in_order = true`), yet `view_cart` does not fail — it returns that ordered
cart, because `CartView.get` filters only by owner (views.py:74), never by
`in_order`. -/
theorem C6_counterexample :
    viewCart storeC6 1 = .ok (⟨1, 1, 0, 0, true, false⟩, [])
    ∧ (Cart.mk 1 1 0 0 true false).inOrder = true :=
  ⟨rfl, rfl⟩

/-- C6 (amended): `view_cart` returns the customer's UNIQUE cart regardless
of its `in_order` flag, together with the sidebar counts; it fails with
`DoesNotExist` (the `NoActiveCart` condition) when the customer has no cart
at all — never returning a default — and with `MultipleObjectsReturned`
when the customer has several carts. -/
theorem C6_view_cart_unfiltered (st : Store) (u : Nat) (cust : Customer)
    (hcust : objectsGet st.customers (fun c => c.userId == u) = .ok cust) :
    (st.carts.filter (fun c => c.ownerId == cust.id) = [] →
      viewCart st u = .error .doesNotExist)
    ∧ (∀ cart entries, st.carts.filter (fun c => c.ownerId == cust.id) = [cart] →
        getCategoriesForLeftSidebar st = some entries →
        viewCart st u = .ok (cart, entries))
    ∧ (∀ c1 c2 rest, st.carts.filter (fun c => c.ownerId == cust.id) = c1 :: c2 :: rest →
        viewCart st u = .error .multipleObjectsReturned) := by
  refine ⟨fun h => ?_, fun cart entries h hs => ?_, fun c1 c2 rest h => ?_⟩
  · have hcart : objectsGet st.carts (fun c => c.ownerId == cust.id)
        = .error .doesNotExist := by
      unfold objectsGet
      rw [h]
    simp [viewCart, Bind.bind, Except.bind, hcust, hcart]
  · have hcart : objectsGet st.carts (fun c => c.ownerId == cust.id) = .ok cart := by
      unfold objectsGet
      rw [h]
    simp [viewCart, Bind.bind, Except.bind, Pure.pure, Except.pure, hcust, hcart, hs]
  · have hcart : objectsGet st.carts (fun c => c.ownerId == cust.id)
        = .error .multipleObjectsReturned := by
      unfold objectsGet
      rw [h]
    simp [viewCart, Bind.bind, Except.bind, hcust, hcart]

/-- A store whose only cart is ACTIVE, and one with no cart, to witness
C6's amended statement. -/
def storeC6w : Store :=
  { categories := []
    notebooks := []
    smartphones := []
    customers := [⟨1, 1⟩]
    carts := [⟨1, 1, 0, 0, false, false⟩]
    cartProducts := [] }

/-- Companion store for the C6 witness: customer 1 has no cart at all. -/
def storeC6none : Store :=
  { categories := []
    notebooks := []
    smartphones := []
    customers := [⟨1, 1⟩]
    carts := []
    cartProducts := [] }

/-- Witness for C6's amended statement: the single-cart customer gets that
cart with the (empty) sidebar, and the cartless customer gets
`DoesNotExist`. -/
theorem C6_view_cart_unfiltered_witness :
    viewCart storeC6w 1 = .ok (⟨1, 1, 0, 0, false, false⟩, [])
    ∧ viewCart storeC6none 1 = .error .doesNotExist :=
  ⟨(C6_view_cart_unfiltered storeC6w 1 ⟨1, 1⟩ rfl).2.1
      ⟨1, 1, 0, 0, false, false⟩ [] rfl rfl,
   (C6_view_cart_unfiltered storeC6none 1 ⟨1, 1⟩ rfl).1 rfl⟩
